import Mathlib

/-!
# Verification of the events-api-http-server query core

Shallow embedding of the block-windowed pagination / filter-composition engine
of the events API HTTP server (`src/main.rs`, `src/nft_events.rs`,
`src/potlock_events.rs`, `src/trade_events.rs`, `src/utils.rs`).

* Timestamps are modelled as integer nanoseconds (`Int`), matching the
  `extract(epoch from timestamp) * 1_000_000_000 >= $1` comparison in every query.
* The SQL queries (all nine endpoints share one shape: a `blocks` CTE selecting
  `DISTINCT timestamp ... ORDER BY t LIMIT n`, joined back against the table with
  the same `WHERE` condition, `ORDER BY timestamp ASC`) are embedded as list
  functions over an in-memory table.
* The storage connection is modelled as a table plus a health flag; an unhealthy
  store makes the fetch fail, matching a connectivity/query failure of the pool.
* `sqlx::types::BigDecimal` (the `bigdecimal` crate) is embedded as an integer
  mantissa with a decimal scale, together with its canonical decimal-string
  `Display` form and its `from_str` parse on plain (non-exponent) decimal strings.
-/

namespace EventsApi

/-! ## Decimal values (`sqlx::types::BigDecimal`)

The `bigdecimal` crate represents a value as `int_val * 10 ^ (-scale)` for a
(signed, arbitrary-precision) integer `int_val` and a signed integer `scale`. -/

/-- An arbitrary-precision decimal: the value `intVal * 10 ^ (-scale)`. -/
structure BigDecimal where
  intVal : Int
  scale : Int
  deriving DecidableEq

/-- The rational value denoted by a `BigDecimal`. -/
def BigDecimal.val (d : BigDecimal) : ℚ :=
  (d.intVal : ℚ) * (10 : ℚ) ^ (-d.scale)

/-- The ten decimal digit characters, least digit first. -/
def decDigitChars : List Char :=
  ['0', '1', '2', '3', '4', '5', '6', '7', '8', '9']

/-- Character for one decimal digit. -/
def digitToChar (d : ℕ) : Char :=
  decDigitChars.getD d '0'

/-- Numeric value of one decimal digit character, `none` on a non-digit. -/
def charToDigit (c : Char) : Option ℕ :=
  if c = '0' then some 0
  else if c = '1' then some 1
  else if c = '2' then some 2
  else if c = '3' then some 3
  else if c = '4' then some 4
  else if c = '5' then some 5
  else if c = '6' then some 6
  else if c = '7' then some 7
  else if c = '8' then some 8
  else if c = '9' then some 9
  else none

/-- Base-10 digit extraction, least significant digit first, driven by
explicit fuel so that it evaluates by kernel reduction. -/
def natDigitsAux : ℕ → ℕ → List ℕ
  | 0, _ => []
  | _ + 1, 0 => []
  | fuel + 1, n + 1 => (n + 1) % 10 :: natDigitsAux fuel ((n + 1) / 10)

/-- Base-10 digits of `n`, least significant digit first (`[]` for `0`). -/
def natDigitsLSD (n : ℕ) : List ℕ :=
  natDigitsAux n n

/-- Decimal digit string (most significant digit first) of a natural number,
as `BigInt::to_str_radix(10)` produces it; `0` prints as `"0"`. -/
def natToChars (n : ℕ) : List Char :=
  if n = 0 then ['0'] else (natDigitsLSD n).reverse.map digitToChar

/-- Option-valued map over a list, failing the whole list on the first failure
(the shape of Rust's `collect::<Result<Vec<_>, _>>()`). -/
def mapOptM (f : α → Option β) : List α → Option (List β)
  | [] => some []
  | a :: l =>
    match f a, mapOptM f l with
    | some b, some bs => some (b :: bs)
    | _, _ => none

/-- Split a character list at its first `'.'`; `none` when there is no point. -/
def splitOnDot : List Char → List Char × Option (List Char)
  | [] => ([], none)
  | c :: rest =>
    if c = '.' then ([], some rest)
    else
      let p := splitOnDot rest
      (c :: p.1, p.2)

/-- Parse an unsigned plain decimal string (digits with an optional decimal
point), as `BigDecimal::from_str` does on exponent-free input: the digits on
both sides of the point form the mantissa and the scale is the number of
fractional digits. -/
def parseUnsignedDecimal (cs : List Char) : Option BigDecimal :=
  let p := splitOnDot cs
  let fracDigits := p.2.getD []
  let allDigits := p.1 ++ fracDigits
  if allDigits.isEmpty then none
  else
    match mapOptM charToDigit allDigits with
    | none => none
    | some ds => some ⟨(Nat.ofDigits 10 ds.reverse : ℕ), (fracDigits.length : Int)⟩

/-- Parse a plain decimal string with an optional leading sign,
modelling `BigDecimal::from_str` on exponent-free input. -/
def parseBigDecimal (cs : List Char) : Option BigDecimal :=
  if cs.head? = some '-' then
    (parseUnsignedDecimal cs.tail).map fun d => ⟨-d.intVal, d.scale⟩
  else parseUnsignedDecimal cs

/-- The sign-free part of the crate's `Display` form for the value
`m * 10 ^ (-scale)` with `m` the absolute mantissa: the mantissa digits are
shifted by `scale`, producing `0.00…digits` when the scale reaches past all
digits, an inserted point when it falls inside them, and appended zeros when
the scale is not positive. -/
def decimalBody (m : ℕ) (scale : Int) : List Char :=
  let absInt := natToChars m
  if (absInt.length : Int) ≤ scale then
    '0' :: '.' :: (List.replicate (scale.toNat - absInt.length) '0' ++ absInt)
  else if 0 < scale then
    absInt.take (absInt.length - scale.toNat) ++
      '.' :: absInt.drop (absInt.length - scale.toNat)
  else absInt ++ List.replicate (-scale).toNat '0'

/-- The canonical decimal string of a `BigDecimal`, following the crate's
`Display` implementation: the sign-free body of the absolute mantissa, with a
`'-'` prepended for negative values. -/
def bigDecimalToChars (d : BigDecimal) : List Char :=
  if d.intVal < 0 then '-' :: decimalBody d.intVal.natAbs d.scale
  else decimalBody d.intVal.natAbs d.scale

/-! ## Wire values (`serde_json::Value`) -/

/-- A JSON value, as produced on the wire by the serde serializers. -/
inductive Json where
  | null
  | bool (b : Bool)
  | num (n : Int)
  | str (s : String)
  | arr (elems : List Json)
  | obj (fields : List (String × Json))
  deriving BEq

/-- `impl Serialize for Balance` (`src/utils.rs`): `self.0.to_string()` is
serialized, so the wire form is always a JSON string of the canonical decimal. -/
def serializeBalance (d : BigDecimal) : Json :=
  .str (String.mk (bigDecimalToChars d))

/-- `impl Deserialize for Balance` (`src/utils.rs`): a JSON string is expected,
then `BigDecimal::from_str`; any failure fails the whole value. -/
def deserializeBalance (j : Json) : Option BigDecimal :=
  match j with
  | .str s => parseBigDecimal s.toList
  | _ => none

/-- `impl Serialize for OptionalBalance` (`src/utils.rs`):
`self.0.as_ref().map(|v| v.to_string())`, i.e. `null` or a decimal string. -/
def serializeOptionalBalance : Option BigDecimal → Json
  | none => .null
  | some d => .str (String.mk (bigDecimalToChars d))

/-- `impl Deserialize for OptionalBalance` (`src/utils.rs`). -/
def deserializeOptionalBalance (j : Json) : Option (Option BigDecimal) :=
  match j with
  | .null => some none
  | .str s => (parseBigDecimal s.toList).map some
  | _ => none

/-- `impl Serialize for VecBalance` (`src/utils.rs`): an array of decimal strings. -/
def serializeVecBalance (ds : List BigDecimal) : Json :=
  .arr (ds.map serializeBalance)

/-- `impl Deserialize for VecBalance` (`src/utils.rs`): every element must parse,
collected as in `collect::<Result<Vec<BigDecimal>, _>>()`. -/
def deserializeVecBalance (j : Json) : Option (List BigDecimal) :=
  match j with
  | .arr js => mapOptM deserializeBalance js
  | _ => none

/-! ## Query engine

All nine endpoint queries share one SQL shape:

```
WITH blocks AS (
    SELECT DISTINCT timestamp as t FROM <table>
    WHERE <filter> AND extract(epoch from timestamp) * 1_000_000_000 >= $1
    ORDER BY t LIMIT $2)
SELECT <columns> FROM <table>
INNER JOIN blocks ON timestamp = blocks.t
WHERE <filter>
ORDER BY timestamp ASC
```

embedded below over an in-memory table, parameterized by the row's timestamp
projection `ts` and the endpoint's filter predicate. Postgres rejects a
negative `LIMIT`, which surfaces as a query failure. -/

/-- `const MAX_BLOCKS_PER_REQUEST: i64 = 50` (`src/main.rs`). -/
def MAX_BLOCKS_PER_REQUEST : Int := 50

/-- The common query parameters (`src/main.rs`): `start_block_timestamp_nanosec`
defaults to `0`, `blocks` defaults to `10`. -/
structure PaginationInfo where
  start_block_timestamp_nanosec : Int := 0
  blocks : Int := 10
  deriving DecidableEq

/-- A storage-layer fetch failure: connectivity loss of the pool, or a failed
query (e.g. a negative `LIMIT`, or a stored value that cannot be decoded). -/
inductive FetchError where
  | connectionLost
  | queryFailed
  deriving DecidableEq

/-- The storage backend: a pre-populated table plus a health flag for the
connection; an unhealthy connection fails every fetch. -/
structure Store (ρ : Type) where
  rows : List ρ
  healthy : Bool

/-- The `blocks` CTE: distinct timestamps of the rows at or after the cursor
that satisfy the filter, ascending, limited to `limit`. -/
def sqlWindow (ts : ρ → Int) (pred : ρ → Bool) (start limit : Int)
    (rows : List ρ) : List Int :=
  ((((rows.filter fun r => pred r && decide (start ≤ ts r)).map ts).dedup).insertionSort
    (· ≤ ·)).take limit.toNat

/-- The outer `SELECT`: the rows whose timestamp joins against the window and
which satisfy the same filter, ordered ascending by timestamp (the secondary
order within one block is not specified by the query; a stable sort stands in
for whatever order the engine returns). -/
def sqlSelect (ts : ρ → Int) (pred : ρ → Bool) (window : List Int)
    (rows : List ρ) : List ρ :=
  (rows.filter fun r => decide (ts r ∈ window) && pred r).insertionSort
    fun a b => ts a ≤ ts b

/-- One endpoint query: compute the block window, then fetch its matching rows.
A negative `LIMIT` makes Postgres reject the statement. -/
def eventsQuery (ts : ρ → Int) (pred : ρ → Bool) (start limit : Int)
    (rows : List ρ) : Except FetchError (List ρ) :=
  if limit < 0 then .error .queryFailed
  else .ok (sqlSelect ts pred (sqlWindow ts pred start limit rows) rows)

/-- `fetch_all(&state.pg_pool)`: run the query against the store, failing when
the connection is unhealthy. -/
def runQuery (store : Store ρ) (q : List ρ → Except FetchError (List σ)) :
    Except FetchError (List σ) :=
  if store.healthy then q store.rows else .error .connectionLost

/-- The observable outcome of one request: a `400` with a message, a `200` with
a JSON body, a bodiless `500`, or an aborted handler (the `.unwrap()` of the
nft endpoints panicking on a fetch error, which never produces a response). -/
inductive HttpResponse (α : Type) where
  | badRequest (body : String)
  | ok (body : α)
  | internalServerError
  | panicked
  deriving DecidableEq

/-- The body of the `blocks`-bound validation error, with
`MAX_BLOCKS_PER_REQUEST` formatted in. -/
def blocksErrorBody : String :=
  "Blocks per request must be less or equal to 50"

/-- Rust's `s.split(',')` over the characters of a query-string value:
every comma is a separator and empty pieces are kept. -/
def splitCommaChars : List Char → List (List Char)
  | [] => [[]]
  | c :: rest =>
    if c = ',' then [] :: splitCommaChars rest
    else
      match splitCommaChars rest with
      | [] => [[c]]
      | g :: gs => (c :: g) :: gs

/-- `involved_account_ids.split(',').map(ToOwned::to_owned).collect::<Vec<String>>()`. -/
def splitComma (s : String) : List String :=
  (splitCommaChars s.toList).map String.mk

/-! ## NFT endpoints (`src/nft_events.rs`) -/

/-- `rust_decimal::prelude::Decimal` (the `Balance` alias of `src/nft_events.rs`):
a 96-bit mantissa with a bounded scale; its internals are inert for the claims. -/
structure RustDecimal where
  mantissa : Int
  scale : ℕ
  deriving DecidableEq

/-- `NftMintEvent` (`src/nft_events.rs`); `timestamp` is integer nanoseconds. -/
structure NftMintEvent where
  owner_id : String
  token_ids : List String
  memo : Option String
  transaction_id : String
  receipt_id : String
  block_height : Int
  timestamp : Int
  contract_id : String
  deriving DecidableEq

/-- `NftTransferEvent` (`src/nft_events.rs`). -/
structure NftTransferEvent where
  old_owner_id : String
  new_owner_id : String
  token_ids : List String
  memo : Option String
  token_prices_near : List RustDecimal
  transaction_id : String
  receipt_id : String
  block_height : Int
  timestamp : Int
  contract_id : String
  deriving DecidableEq

/-- `NftBurnEvent` (`src/nft_events.rs`). -/
structure NftBurnEvent where
  owner_id : String
  token_ids : List String
  memo : Option String
  transaction_id : String
  receipt_id : String
  block_height : Int
  timestamp : Int
  contract_id : String
  deriving DecidableEq

/-- `NftMintFilter` (`src/nft_events.rs`). -/
structure NftMintFilter where
  token_account_id : Option String := none
  account_id : Option String := none

/-- `NftTransferFilter` (`src/nft_events.rs`). -/
structure NftTransferFilter where
  token_account_id : Option String := none
  old_owner_id : Option String := none
  new_owner_id : Option String := none
  involved_account_ids : Option String := none

/-- `NftBurnFilter` (`src/nft_events.rs`). -/
structure NftBurnFilter where
  token_account_id : Option String := none
  account_id : Option String := none

/-- The `WHERE` condition of the four `nft_mint` queries, one per match arm of
`(&filter.token_account_id, &filter.account_id)`. -/
def nftMintPred (f : NftMintFilter) : NftMintEvent → Bool :=
  match f.token_account_id, f.account_id with
  | none, none => fun _ => true
  | some t, none => fun r => r.contract_id == t
  | none, some a => fun r => r.owner_id == a
  | some t, some a => fun r => r.contract_id == t && r.owner_id == a

/-- `ARRAY[old_owner_id, new_owner_id] @> $ids`: the two-column array contains
every element of the parameter array. -/
def involvedAccountsPred (accountIds : List String) (r : NftTransferEvent) : Bool :=
  accountIds.all fun a => a == r.old_owner_id || a == r.new_owner_id

/-- The `WHERE` condition of the ten `nft_transfer` queries, one per match arm of
`(&filter.token_account_id, &filter.old_owner_id, &filter.new_owner_id,
&filter.involved_account_ids)`, in source order: the two `involved_account_ids`
arms come first and wildcard the owner fields. -/
def nftTransferPred (f : NftTransferFilter) : NftTransferEvent → Bool :=
  match f.token_account_id, f.old_owner_id, f.new_owner_id, f.involved_account_ids with
  | none, _, _, some inv => fun r => involvedAccountsPred (splitComma inv) r
  | some t, _, _, some inv => fun r =>
      r.contract_id == t && involvedAccountsPred (splitComma inv) r
  | none, none, none, none => fun _ => true
  | some t, none, none, none => fun r => r.contract_id == t
  | none, some o, none, none => fun r => r.old_owner_id == o
  | none, none, some n, none => fun r => r.new_owner_id == n
  | some t, some o, none, none => fun r => r.contract_id == t && r.old_owner_id == o
  | some t, none, some n, none => fun r => r.contract_id == t && r.new_owner_id == n
  | none, some o, some n, none => fun r => r.old_owner_id == o && r.new_owner_id == n
  | some t, some o, some n, none => fun r =>
      r.contract_id == t && r.old_owner_id == o && r.new_owner_id == n

/-- The `WHERE` condition of the four `nft_burn` queries. -/
def nftBurnPred (f : NftBurnFilter) : NftBurnEvent → Bool :=
  match f.token_account_id, f.account_id with
  | none, none => fun _ => true
  | some t, none => fun r => r.contract_id == t
  | none, some a => fun r => r.owner_id == a
  | some t, some a => fun r => r.contract_id == t && r.owner_id == a

/-- The `/nft/nft_mint` handler: the `blocks` guard, then one of four queries
selected by the filter, with `.unwrap()` on the fetch result. -/
def nft_mint (state : Store NftMintEvent) (pagination : PaginationInfo)
    (filter : NftMintFilter) : HttpResponse (List NftMintEvent) :=
  if MAX_BLOCKS_PER_REQUEST < pagination.blocks then
    .badRequest blocksErrorBody
  else
    match runQuery state (eventsQuery NftMintEvent.timestamp (nftMintPred filter)
        pagination.start_block_timestamp_nanosec pagination.blocks) with
    | .ok res => .ok res
    | .error _ => .panicked

/-- The `/nft/nft_transfer` handler: the `blocks` guard, then one of ten queries
selected by the filter, with `.unwrap()` on the fetch result. -/
def nft_transfer (state : Store NftTransferEvent) (pagination : PaginationInfo)
    (filter : NftTransferFilter) : HttpResponse (List NftTransferEvent) :=
  if MAX_BLOCKS_PER_REQUEST < pagination.blocks then
    .badRequest blocksErrorBody
  else
    match runQuery state (eventsQuery NftTransferEvent.timestamp (nftTransferPred filter)
        pagination.start_block_timestamp_nanosec pagination.blocks) with
    | .ok res => .ok res
    | .error _ => .panicked

/-- The `/nft/nft_burn` handler: the `blocks` guard, then one of four queries
selected by the filter, with `.unwrap()` on the fetch result. -/
def nft_burn (state : Store NftBurnEvent) (pagination : PaginationInfo)
    (filter : NftBurnFilter) : HttpResponse (List NftBurnEvent) :=
  if MAX_BLOCKS_PER_REQUEST < pagination.blocks then
    .badRequest blocksErrorBody
  else
    match runQuery state (eventsQuery NftBurnEvent.timestamp (nftBurnPred filter)
        pagination.start_block_timestamp_nanosec pagination.blocks) with
    | .ok res => .ok res
    | .error _ => .panicked

/-! ## Potlock endpoints (`src/potlock_events.rs`)

These three handlers use one tri-state query each
(`($n::TEXT IS NULL OR column = $n)` per optional field) and map a fetch
failure to `HttpResponse::InternalServerError().finish()`. -/

/-- `PotlockDonationEvent` (`src/potlock_events.rs`); `donated_at` is integer
milliseconds, independent of the ledger `timestamp`. -/
structure PotlockDonationEvent where
  transaction_id : String
  receipt_id : String
  block_height : Int
  timestamp : Int
  donation_id : Int
  donor_id : String
  total_amount : BigDecimal
  message : Option String
  donated_at : Int
  project_id : String
  protocol_fee : BigDecimal
  referrer_id : Option String
  referrer_fee : Option BigDecimal
  deriving DecidableEq

/-- `PotlockPotProjectDonationEvent` (`src/potlock_events.rs`). -/
structure PotlockPotProjectDonationEvent where
  transaction_id : String
  receipt_id : String
  block_height : Int
  timestamp : Int
  donation_id : Int
  pot_id : String
  donor_id : String
  total_amount : BigDecimal
  net_amount : BigDecimal
  message : Option String
  donated_at : Int
  project_id : String
  referrer_id : Option String
  referrer_fee : Option BigDecimal
  protocol_fee : BigDecimal
  chef_id : Option String
  chef_fee : Option BigDecimal
  deriving DecidableEq

/-- `PotlockPotDonationEvent` (`src/potlock_events.rs`). -/
structure PotlockPotDonationEvent where
  transaction_id : String
  receipt_id : String
  block_height : Int
  timestamp : Int
  donation_id : Int
  pot_id : String
  donor_id : String
  total_amount : BigDecimal
  net_amount : BigDecimal
  message : Option String
  donated_at : Int
  referrer_id : Option String
  referrer_fee : Option BigDecimal
  protocol_fee : BigDecimal
  chef_id : Option String
  chef_fee : Option BigDecimal
  deriving DecidableEq

/-- `PotlockDonationFilter` (`src/potlock_events.rs`). -/
structure PotlockDonationFilter where
  project_id : Option String := none
  donor_id : Option String := none
  referrer_id : Option String := none

/-- `PotlockPotProjectDonationFilter` (`src/potlock_events.rs`). -/
structure PotlockPotProjectDonationFilter where
  pot_id : Option String := none
  project_id : Option String := none
  donor_id : Option String := none
  referrer_id : Option String := none

/-- `PotlockPotDonationFilter` (`src/potlock_events.rs`). -/
structure PotlockPotDonationFilter where
  pot_id : Option String := none
  donor_id : Option String := none
  referrer_id : Option String := none

/-- The tri-state `WHERE` condition of the `potlock_donation` query: each
absent field imposes no constraint; `referrer_id = $5` against a `NULL` column
is not true, so a filter on `referrer_id` excludes rows without a referrer. -/
def potlockDonationPred (f : PotlockDonationFilter) (r : PotlockDonationEvent) : Bool :=
  (f.project_id.all fun v => r.project_id == v) &&
  (f.donor_id.all fun v => r.donor_id == v) &&
  (f.referrer_id.all fun v => r.referrer_id == some v)

/-- The tri-state `WHERE` condition of the `potlock_pot_project_donation` query. -/
def potlockPotProjectDonationPred (f : PotlockPotProjectDonationFilter)
    (r : PotlockPotProjectDonationEvent) : Bool :=
  (f.pot_id.all fun v => r.pot_id == v) &&
  (f.project_id.all fun v => r.project_id == v) &&
  (f.donor_id.all fun v => r.donor_id == v) &&
  (f.referrer_id.all fun v => r.referrer_id == some v)

/-- The tri-state `WHERE` condition of the `potlock_pot_donation` query. -/
def potlockPotDonationPred (f : PotlockPotDonationFilter)
    (r : PotlockPotDonationEvent) : Bool :=
  (f.pot_id.all fun v => r.pot_id == v) &&
  (f.donor_id.all fun v => r.donor_id == v) &&
  (f.referrer_id.all fun v => r.referrer_id == some v)

/-- The `/potlock/potlock_donation` handler. -/
def potlock_donation (state : Store PotlockDonationEvent) (pagination : PaginationInfo)
    (filter : PotlockDonationFilter) : HttpResponse (List PotlockDonationEvent) :=
  if MAX_BLOCKS_PER_REQUEST < pagination.blocks then
    .badRequest blocksErrorBody
  else
    match runQuery state (eventsQuery PotlockDonationEvent.timestamp
        (potlockDonationPred filter)
        pagination.start_block_timestamp_nanosec pagination.blocks) with
    | .ok res => .ok res
    | .error _ => .internalServerError

/-- The `/potlock/potlock_pot_project_donation` handler. -/
def potlock_pot_project_donation (state : Store PotlockPotProjectDonationEvent)
    (pagination : PaginationInfo) (filter : PotlockPotProjectDonationFilter) :
    HttpResponse (List PotlockPotProjectDonationEvent) :=
  if MAX_BLOCKS_PER_REQUEST < pagination.blocks then
    .badRequest blocksErrorBody
  else
    match runQuery state (eventsQuery PotlockPotProjectDonationEvent.timestamp
        (potlockPotProjectDonationPred filter)
        pagination.start_block_timestamp_nanosec pagination.blocks) with
    | .ok res => .ok res
    | .error _ => .internalServerError

/-- The `/potlock/potlock_pot_donation` handler. -/
def potlock_pot_donation (state : Store PotlockPotDonationEvent)
    (pagination : PaginationInfo) (filter : PotlockPotDonationFilter) :
    HttpResponse (List PotlockPotDonationEvent) :=
  if MAX_BLOCKS_PER_REQUEST < pagination.blocks then
    .badRequest blocksErrorBody
  else
    match runQuery state (eventsQuery PotlockPotDonationEvent.timestamp
        (potlockPotDonationPred filter)
        pagination.start_block_timestamp_nanosec pagination.blocks) with
    | .ok res => .ok res
    | .error _ => .internalServerError

/-! ## Trade endpoints (`src/trade_events.rs`) -/

/-- `TradePoolEvent` (`src/trade_events.rs`). -/
structure TradePoolEvent where
  trader : String
  block_height : Int
  timestamp : Int
  transaction_id : String
  receipt_id : String
  pool : String
  token_in : String
  token_out : String
  amount_in : BigDecimal
  amount_out : BigDecimal
  deriving DecidableEq

/-- `TradeSwapEvent` (`src/trade_events.rs`): `balance_changes` is an opaque
JSON payload mapping token account ids to balance changes. -/
structure TradeSwapEvent where
  trader : String
  block_height : Int
  timestamp : Int
  transaction_id : String
  receipt_id : String
  balance_changes : Json

/-- `TradePoolChangeEvent` (`src/trade_events.rs`). -/
structure TradePoolChangeEvent where
  pool_id : String
  receipt_id : String
  timestamp : Int
  block_height : Int
  pool : Json

/-- `TradePoolFilter` (`src/trade_events.rs`). -/
structure TradePoolFilter where
  pool_id : Option String := none
  account_id : Option String := none

/-- `TradeSwapFilter` (`src/trade_events.rs`). -/
structure TradeSwapFilter where
  account_id : Option String := none
  involved_token_account_ids : Option String := none

/-- `TradePoolChangeFilter` (`src/trade_events.rs`). -/
structure TradePoolChangeFilter where
  pool_id : Option String := none

/-- Postgres `jsonb ?& text[]`: every string in `keys` exists as a top-level
key of an object, as an element of an array of strings, or as the scalar
string itself. -/
def jsonHasAllKeys (j : Json) (keys : List String) : Bool :=
  match j with
  | .obj kvs => keys.all fun k => kvs.any fun kv => kv.1 == k
  | .arr elems => keys.all fun k => elems.any fun e => e == Json.str k
  | .str s => keys.all fun k => s == k
  | _ => false

/-- The tri-state `WHERE` condition of the `trade_pool` query. -/
def tradePoolPred (f : TradePoolFilter) (r : TradePoolEvent) : Bool :=
  (f.pool_id.all fun v => r.pool == v) &&
  (f.account_id.all fun v => r.trader == v)

/-- The tri-state `WHERE` condition of the `trade_swap` query:
`($4::TEXT[] IS NULL OR balance_changes ?& $4)` with `$4` the comma-split
`involved_token_account_ids`. -/
def tradeSwapPred (f : TradeSwapFilter) (r : TradeSwapEvent) : Bool :=
  (f.account_id.all fun v => r.trader == v) &&
  (f.involved_token_account_ids.all fun s =>
    jsonHasAllKeys r.balance_changes (splitComma s))

/-- The tri-state `WHERE` condition of the `trade_pool_change` query. -/
def tradePoolChangePred (f : TradePoolChangeFilter) (r : TradePoolChangeEvent) : Bool :=
  f.pool_id.all fun v => r.pool_id == v

/-- The `/trade/trade_pool` handler. -/
def trade_pool (state : Store TradePoolEvent) (pagination : PaginationInfo)
    (filter : TradePoolFilter) : HttpResponse (List TradePoolEvent) :=
  if MAX_BLOCKS_PER_REQUEST < pagination.blocks then
    .badRequest blocksErrorBody
  else
    match runQuery state (eventsQuery TradePoolEvent.timestamp (tradePoolPred filter)
        pagination.start_block_timestamp_nanosec pagination.blocks) with
    | .ok res => .ok res
    | .error _ => .internalServerError

/-- The `/trade/trade_swap` handler. -/
def trade_swap (state : Store TradeSwapEvent) (pagination : PaginationInfo)
    (filter : TradeSwapFilter) : HttpResponse (List TradeSwapEvent) :=
  if MAX_BLOCKS_PER_REQUEST < pagination.blocks then
    .badRequest blocksErrorBody
  else
    match runQuery state (eventsQuery TradeSwapEvent.timestamp (tradeSwapPred filter)
        pagination.start_block_timestamp_nanosec pagination.blocks) with
    | .ok res => .ok res
    | .error _ => .internalServerError

/-- The `/trade/trade_pool_change` handler. -/
def trade_pool_change (state : Store TradePoolChangeEvent) (pagination : PaginationInfo)
    (filter : TradePoolChangeFilter) : HttpResponse (List TradePoolChangeEvent) :=
  if MAX_BLOCKS_PER_REQUEST < pagination.blocks then
    .badRequest blocksErrorBody
  else
    match runQuery state (eventsQuery TradePoolChangeEvent.timestamp
        (tradePoolChangePred filter)
        pagination.start_block_timestamp_nanosec pagination.blocks) with
    | .ok res => .ok res
    | .error _ => .internalServerError

/-! ## Query-engine lemmas -/

theorem mem_sqlWindow_imp {ts : ρ → Int} {pred : ρ → Bool} {start limit : Int}
    {rows : List ρ} {t : Int} (h : t ∈ sqlWindow ts pred start limit rows) :
    start ≤ t ∧ ∃ r ∈ rows, pred r = true ∧ ts r = t := by
  unfold sqlWindow at h
  have h1 := (List.perm_insertionSort (α := Int) (· ≤ ·) _).mem_iff.mp
    (List.mem_of_mem_take h)
  rw [List.mem_dedup] at h1
  obtain ⟨r, hr, hrt⟩ := List.mem_map.mp h1
  rw [List.mem_filter] at hr
  obtain ⟨hrows, hcond⟩ := hr
  rw [Bool.and_eq_true, decide_eq_true_iff] at hcond
  exact ⟨hrt ▸ hcond.2, r, hrows, hcond.1, hrt⟩

theorem sqlWindow_nodup (ts : ρ → Int) (pred : ρ → Bool) (start limit : Int)
    (rows : List ρ) : (sqlWindow ts pred start limit rows).Nodup := by
  unfold sqlWindow
  exact List.Nodup.sublist (List.take_sublist _ _)
    ((List.perm_insertionSort (α := Int) (· ≤ ·) _).nodup_iff.mpr (List.nodup_dedup _))

theorem sqlWindow_length_le (ts : ρ → Int) (pred : ρ → Bool) (start limit : Int)
    (rows : List ρ) : (sqlWindow ts pred start limit rows).length ≤ limit.toNat := by
  unfold sqlWindow
  rw [List.length_take]
  exact min_le_left _ _

theorem mem_sqlSelect {ts : ρ → Int} {pred : ρ → Bool} {window : List Int}
    {rows : List ρ} {r : ρ} :
    r ∈ sqlSelect ts pred window rows ↔
      r ∈ rows ∧ ts r ∈ window ∧ pred r = true := by
  unfold sqlSelect
  rw [(List.perm_insertionSort _ _).mem_iff, List.mem_filter, Bool.and_eq_true,
    decide_eq_true_iff]

theorem sqlSelect_sorted (ts : ρ → Int) (pred : ρ → Bool) (window : List Int)
    (rows : List ρ) :
    (sqlSelect ts pred window rows).Pairwise fun a b => ts a ≤ ts b := by
  haveI : IsTotal ρ fun a b => ts a ≤ ts b := ⟨fun a b => Int.le_total _ _⟩
  haveI : IsTrans ρ fun a b => ts a ≤ ts b := ⟨fun _ _ _ => Int.le_trans⟩
  exact List.sorted_insertionSort _ _

theorem eventsQuery_eq_ok {ts : ρ → Int} {pred : ρ → Bool} {start limit : Int}
    {rows res : List ρ} (h : eventsQuery ts pred start limit rows = .ok res) :
    0 ≤ limit ∧ res = sqlSelect ts pred (sqlWindow ts pred start limit rows) rows := by
  unfold eventsQuery at h
  split at h
  · exact absurd h (by simp)
  · injection h with h
    exact ⟨le_of_not_lt (by assumption), h.symm⟩

theorem eventsQuery_ok_of_nonneg {ts : ρ → Int} {pred : ρ → Bool} {start limit : Int}
    {rows : List ρ} (h : 0 ≤ limit) :
    eventsQuery ts pred start limit rows =
      .ok (sqlSelect ts pred (sqlWindow ts pred start limit rows) rows) := by
  unfold eventsQuery
  rw [if_neg (not_lt.mpr h)]

theorem eventsQuery_empty_of_no_match {ts : ρ → Int} {pred : ρ → Bool}
    {start limit : Int} {rows : List ρ}
    (hnone : ∀ r ∈ rows, ¬(pred r = true ∧ start ≤ ts r)) (hlim : 0 ≤ limit) :
    eventsQuery ts pred start limit rows = .ok [] := by
  rw [eventsQuery_ok_of_nonneg hlim]
  have hwin : sqlWindow ts pred start limit rows = [] := by
    unfold sqlWindow
    rw [List.filter_eq_nil_iff.mpr fun r hr => by
      rw [Bool.and_eq_true, decide_eq_true_iff]; exact hnone r hr]
    simp
  rw [hwin]
  unfold sqlSelect
  rw [List.filter_eq_nil_iff.mpr fun r _ => by simp]
  rfl

theorem eventsQuery_limit_zero {ts : ρ → Int} {pred : ρ → Bool} {start : Int}
    {rows : List ρ} : eventsQuery ts pred start 0 rows = .ok [] := by
  rw [eventsQuery_ok_of_nonneg le_rfl]
  have hwin : sqlWindow ts pred start 0 rows = [] := by
    unfold sqlWindow
    simp
  rw [hwin]
  unfold sqlSelect
  rw [List.filter_eq_nil_iff.mpr fun r _ => by simp]
  rfl

theorem eventsQuery_congr {ts : ρ → Int} {p q : ρ → Bool} {start limit : Int}
    {rows : List ρ} (h : ∀ r, p r = q r) :
    eventsQuery ts p start limit rows = eventsQuery ts q start limit rows := by
  have hf : rows.filter (fun r => p r && decide (start ≤ ts r)) =
      rows.filter fun r => q r && decide (start ≤ ts r) :=
    List.filter_congr fun r _ => by rw [h r]
  have hsel : ∀ w : List Int, rows.filter (fun r => decide (ts r ∈ w) && p r) =
      rows.filter fun r => decide (ts r ∈ w) && q r :=
    fun w => List.filter_congr fun r _ => by rw [h r]
  unfold eventsQuery sqlSelect sqlWindow
  rw [hf, hsel]

/-! ## Decimal-codec lemmas -/

/-- The most-significant-first digit list printed for `n` (with `[0]` for `0`). -/
def msdDigits (n : ℕ) : List ℕ :=
  if n = 0 then [0] else (Nat.digits 10 n).reverse

theorem natDigitsAux_eq : ∀ fuel n, n ≤ fuel → natDigitsAux fuel n = Nat.digits 10 n
  | 0, 0, _ => by simp [natDigitsAux]
  | 0, _ + 1, h => absurd h (by omega)
  | _ + 1, 0, _ => by simp [natDigitsAux]
  | fuel + 1, n + 1, h => by
    rw [natDigitsAux, Nat.digits_def' (by norm_num) (Nat.succ_pos n)]
    exact congrArg _ (natDigitsAux_eq fuel ((n + 1) / 10) (by omega))

theorem natDigitsLSD_eq (n : ℕ) : natDigitsLSD n = Nat.digits 10 n :=
  natDigitsAux_eq n n le_rfl

theorem natToChars_eq_map (n : ℕ) : natToChars n = (msdDigits n).map digitToChar := by
  unfold natToChars msdDigits
  split
  · rfl
  · rw [natDigitsLSD_eq]

theorem msdDigits_lt (n : ℕ) : ∀ x ∈ msdDigits n, x < 10 := by
  unfold msdDigits
  split
  · simp
  · intro x hx
    exact Nat.digits_lt_base (by norm_num) (List.mem_reverse.mp hx)

theorem msdDigits_ne_nil (n : ℕ) : msdDigits n ≠ [] := by
  unfold msdDigits
  split
  · simp
  · simpa using Nat.digits_ne_nil_iff_ne_zero.mpr ‹¬n = 0›

theorem ofDigits_reverse_msdDigits (n : ℕ) :
    Nat.ofDigits 10 (msdDigits n).reverse = n := by
  unfold msdDigits
  split
  · simpa using ‹n = 0›.symm
  · rw [List.reverse_reverse, Nat.ofDigits_digits]

theorem charToDigit_digitToChar {d : ℕ} (h : d < 10) :
    charToDigit (digitToChar d) = some d := by
  interval_cases d <;> rfl

theorem digitToChar_ne_dot {d : ℕ} (h : d < 10) : digitToChar d ≠ '.' := by
  interval_cases d <;> decide

theorem digitToChar_ne_dash {d : ℕ} (h : d < 10) : digitToChar d ≠ '-' := by
  interval_cases d <;> decide

theorem mapOptM_map_digitToChar {l : List ℕ} (h : ∀ x ∈ l, x < 10) :
    mapOptM charToDigit (l.map digitToChar) = some l := by
  induction l with
  | nil => rfl
  | cons a l ih =>
    rw [List.map_cons]
    unfold mapOptM
    rw [charToDigit_digitToChar (h a (by simp)), ih fun x hx => h x (by simp [hx])]

theorem mapOptM_append {f : α → Option β} {a b : List α} {ra rb : List β}
    (ha : mapOptM f a = some ra) (hb : mapOptM f b = some rb) :
    mapOptM f (a ++ b) = some (ra ++ rb) := by
  induction a generalizing ra with
  | nil =>
    unfold mapOptM at ha
    injection ha with ha
    rw [← ha]
    simpa using hb
  | cons x a ih =>
    rw [List.cons_append]
    unfold mapOptM at ha ⊢
    cases hfx : f x with
    | none => rw [hfx] at ha; exact absurd ha (by simp)
    | some y =>
      cases hma : mapOptM f a with
      | none => rw [hfx, hma] at ha; exact absurd ha (by simp)
      | some ys =>
        rw [hfx, hma] at ha
        injection ha with ha
        rw [ih hma, ← ha]
        rfl

theorem ofDigits_replicate_zero (k : ℕ) :
    Nat.ofDigits 10 (List.replicate k 0) = 0 := by
  induction k with
  | zero => rfl
  | succ k ih => rw [List.replicate_succ, Nat.ofDigits_cons, ih]

theorem dot_not_mem_natToChars (n : ℕ) : '.' ∉ natToChars n := by
  rw [natToChars_eq_map]
  intro hmem
  obtain ⟨d, hd, hde⟩ := List.mem_map.mp hmem
  exact digitToChar_ne_dot (msdDigits_lt n d hd) hde

theorem dash_not_mem_natToChars (n : ℕ) : '-' ∉ natToChars n := by
  rw [natToChars_eq_map]
  intro hmem
  obtain ⟨d, hd, hde⟩ := List.mem_map.mp hmem
  exact digitToChar_ne_dash (msdDigits_lt n d hd) hde

theorem natToChars_ne_nil (n : ℕ) : natToChars n ≠ [] := by
  rw [natToChars_eq_map]
  simpa using msdDigits_ne_nil n

theorem splitOnDot_no_dot {l : List Char} (h : '.' ∉ l) :
    splitOnDot l = (l, none) := by
  induction l with
  | nil => rfl
  | cons c rest ih =>
    unfold splitOnDot
    rw [if_neg (by rintro rfl; exact h (by simp)), ih fun hm => h (by simp [hm])]

theorem splitOnDot_append {a b : List Char} (h : '.' ∉ a) :
    splitOnDot (a ++ '.' :: b) = (a, some b) := by
  induction a with
  | nil => rfl
  | cons c rest ih =>
    rw [List.cons_append]
    unfold splitOnDot
    rw [if_neg (by rintro rfl; exact h (by simp)), ih fun hm => h (by simp [hm])]

theorem parseUnsignedDecimal_decimalBody (m : ℕ) (scale : Int) :
    ∃ u : BigDecimal, parseUnsignedDecimal (decimalBody m scale) = some u ∧
      0 ≤ u.intVal ∧ u.val = (m : ℚ) * (10 : ℚ) ^ (-scale) := by
  have hA := natToChars_eq_map m
  have hmapA : mapOptM charToDigit (natToChars m) = some (msdDigits m) := by
    rw [hA]; exact mapOptM_map_digitToChar (msdDigits_lt m)
  have hofdA : Nat.ofDigits 10 (msdDigits m).reverse = m := ofDigits_reverse_msdDigits m
  have hlenA : (natToChars m).length = (msdDigits m).length := by rw [hA, List.length_map]
  have hdotA : '.' ∉ natToChars m := dot_not_mem_natToChars m
  have hneA : natToChars m ≠ [] := natToChars_ne_nil m
  have hposA : 0 < (natToChars m).length := List.length_pos.mpr hneA
  unfold decimalBody
  by_cases hb1 : ((natToChars m).length : Int) ≤ scale
  · rw [if_pos hb1]
    have hs0 : 0 ≤ scale := le_trans (by exact_mod_cast Nat.zero_le _) hb1
    have hsplit : splitOnDot ('0' :: '.' ::
        (List.replicate (scale.toNat - (natToChars m).length) '0' ++ natToChars m)) =
        (['0'], some (List.replicate (scale.toNat - (natToChars m).length) '0' ++
          natToChars m)) :=
      splitOnDot_append (a := ['0']) (by decide)
    have hmapz : mapOptM charToDigit
        (List.replicate (scale.toNat - (natToChars m).length) '0') =
        some (List.replicate (scale.toNat - (natToChars m).length) 0) := by
      rw [show ('0' : Char) = digitToChar 0 from rfl, ← List.map_replicate]
      exact mapOptM_map_digitToChar (by intro x hx; rw [List.eq_of_mem_replicate hx]; omega)
    have hmapAll : mapOptM charToDigit ('0' ::
        (List.replicate (scale.toNat - (natToChars m).length) '0' ++ natToChars m)) =
        some (0 :: (List.replicate (scale.toNat - (natToChars m).length) 0 ++
          msdDigits m)) := by
      have := mapOptM_append hmapz hmapA
      unfold mapOptM
      rw [this]
      rfl
    have hofd : Nat.ofDigits 10 (0 :: (List.replicate (scale.toNat -
        (natToChars m).length) 0 ++ msdDigits m)).reverse = m := by
      rw [List.reverse_cons, List.reverse_append, List.reverse_replicate,
        List.append_assoc, Nat.ofDigits_append, hofdA]
      have hz : Nat.ofDigits 10 (List.replicate (scale.toNat - (natToChars m).length) 0 ++
          [0]) = 0 := by
        rw [Nat.ofDigits_append, ofDigits_replicate_zero]
        simp [Nat.ofDigits]
      rw [hz]
      ring
    have hlen : ((List.replicate (scale.toNat - (natToChars m).length) '0' ++
        natToChars m).length : Int) = scale := by
      rw [List.length_append, List.length_replicate]
      omega
    refine ⟨⟨(m : Int), scale⟩, ?_,
      by show (0 : Int) ≤ (m : Int); exact_mod_cast Nat.zero_le m, by
        unfold BigDecimal.val; push_cast; ring⟩
    unfold parseUnsignedDecimal
    rw [hsplit]
    simp only [Option.getD_some, List.singleton_append, List.isEmpty_cons,
      Bool.false_eq_true, if_false, hmapAll, hofd, hlen]
  · rw [if_neg hb1]
    by_cases hb2 : 0 < scale
    · rw [if_pos hb2]
      have htake : '.' ∉ (natToChars m).take ((natToChars m).length - scale.toNat) :=
        fun hm => hdotA (List.take_subset _ _ hm)
      have hsplit := splitOnDot_append
        (b := (natToChars m).drop ((natToChars m).length - scale.toNat)) htake
      have hlen : (((natToChars m).drop ((natToChars m).length - scale.toNat)).length :
          Int) = scale := by
        rw [List.length_drop]
        omega
      refine ⟨⟨(m : Int), scale⟩, ?_,
        by show (0 : Int) ≤ (m : Int); exact_mod_cast Nat.zero_le m, by
          unfold BigDecimal.val; push_cast; ring⟩
      unfold parseUnsignedDecimal
      rw [hsplit]
      simp only [Option.getD_some, List.take_append_drop]
      rw [if_neg (by rw [List.isEmpty_iff]; exact hneA), hmapA]
      simp only [hofdA, hlen]
    · rw [if_neg hb2]
      have hs0 : scale ≤ 0 := le_of_not_lt hb2
      have hdotBody : '.' ∉ natToChars m ++ List.replicate (-scale).toNat '0' := by
        intro hm
        rcases List.mem_append.mp hm with hm | hm
        · exact hdotA hm
        · exact absurd (List.eq_of_mem_replicate hm) (by decide)
      have hmapz : mapOptM charToDigit (List.replicate (-scale).toNat '0') =
          some (List.replicate (-scale).toNat 0) := by
        rw [show ('0' : Char) = digitToChar 0 from rfl, ← List.map_replicate]
        exact mapOptM_map_digitToChar
          (by intro x hx; rw [List.eq_of_mem_replicate hx]; omega)
      refine ⟨⟨((10 ^ (-scale).toNat * m : ℕ) : Int), 0⟩, ?_,
        by show (0 : Int) ≤ ((10 ^ (-scale).toNat * m : ℕ) : Int)
           exact_mod_cast Nat.zero_le _, ?_⟩
      · unfold parseUnsignedDecimal
        rw [splitOnDot_no_dot hdotBody]
        simp only [Option.getD_none, List.append_nil]
        rw [if_neg (by rw [List.isEmpty_iff]; simp [hneA]), mapOptM_append hmapA hmapz]
        simp only [List.reverse_append, List.reverse_replicate, Nat.ofDigits_append,
          ofDigits_replicate_zero, List.length_replicate, hofdA, List.length_nil]
        norm_num
      · have hk : (10 : ℚ) ^ (-scale) = (10 : ℚ) ^ (-scale).toNat := by
          rw [← zpow_natCast (10 : ℚ) (-scale).toNat,
            Int.toNat_of_nonneg (by omega : (0 : ℤ) ≤ -scale)]
        unfold BigDecimal.val
        rw [hk]
        show ((10 ^ (-scale).toNat * m : ℕ) : ℚ) * (10 : ℚ) ^ (-(0 : Int)) = _
        rw [neg_zero, zpow_zero, mul_one]
        push_cast
        ring

theorem dash_not_mem_decimalBody (m : ℕ) (scale : Int) : '-' ∉ decimalBody m scale := by
  have hA := dash_not_mem_natToChars m
  intro hm
  simp only [decimalBody] at hm
  split at hm
  · rcases List.mem_cons.mp hm with h | hm
    · exact absurd h (by decide)
    rcases List.mem_cons.mp hm with h | hm
    · exact absurd h (by decide)
    rcases List.mem_append.mp hm with hm | hm
    · exact absurd (List.eq_of_mem_replicate hm) (by decide)
    · exact hA hm
  split at hm
  · rcases List.mem_append.mp hm with hm | hm
    · exact hA (List.take_subset _ _ hm)
    rcases List.mem_cons.mp hm with h | hm
    · exact absurd h (by decide)
    · exact hA (List.drop_subset _ _ hm)
  · rcases List.mem_append.mp hm with hm | hm
    · exact hA hm
    · exact absurd (List.eq_of_mem_replicate hm) (by decide)

theorem parseBigDecimal_bigDecimalToChars (d : BigDecimal) :
    ∃ d', parseBigDecimal (bigDecimalToChars d) = some d' ∧ d'.val = d.val := by
  obtain ⟨u, hu, hnn, hval⟩ := parseUnsignedDecimal_decimalBody d.intVal.natAbs d.scale
  unfold bigDecimalToChars parseBigDecimal
  by_cases hneg : d.intVal < 0
  · rw [if_pos hneg]
    refine ⟨⟨-u.intVal, u.scale⟩, ?_, ?_⟩
    · simp only [List.head?_cons, if_pos rfl, if_true, List.tail_cons, hu,
        Option.map_some']
    · unfold BigDecimal.val at hval ⊢
      have hcast : ((d.intVal.natAbs : ℕ) : ℚ) = -(d.intVal : ℚ) := by
        rw [Int.cast_natAbs, abs_of_neg hneg]
        push_cast
        ring
      show ((-u.intVal : ℤ) : ℚ) * _ = _
      rw [Int.cast_neg, neg_mul, hval, hcast]
      ring
  · rw [if_neg hneg]
    have hhead : ¬((decimalBody d.intVal.natAbs d.scale).head? = some '-') := by
      intro hh
      exact dash_not_mem_decimalBody _ _
        (List.mem_of_mem_head? (Option.mem_def.mpr hh))
    rw [if_neg hhead, hu]
    refine ⟨u, rfl, ?_⟩
    unfold BigDecimal.val at hval ⊢
    rw [hval]
    have hcast : ((d.intVal.natAbs : ℕ) : ℚ) = (d.intVal : ℚ) := by
      rw [Int.cast_natAbs, abs_of_nonneg (not_lt.mp hneg)]
    rw [hcast]

theorem deserialize_serializeBalance (d : BigDecimal) :
    ∃ d', deserializeBalance (serializeBalance d) = some d' ∧ d'.val = d.val :=
  parseBigDecimal_bigDecimalToChars d

theorem deserialize_serializeVecBalance (ds : List BigDecimal) :
    ∃ ds', deserializeVecBalance (serializeVecBalance ds) = some ds' ∧
      ds'.map BigDecimal.val = ds.map BigDecimal.val := by
  induction ds with
  | nil => exact ⟨[], rfl, rfl⟩
  | cons d ds ih =>
    obtain ⟨ds', hds, hv⟩ := ih
    obtain ⟨d', hd, hdv⟩ := parseBigDecimal_bigDecimalToChars d
    refine ⟨d' :: ds', ?_, ?_⟩
    · show mapOptM deserializeBalance (serializeBalance d :: ds.map serializeBalance) =
        some (d' :: ds')
      unfold mapOptM
      rw [show deserializeBalance (serializeBalance d) = some d' from hd,
        show mapOptM deserializeBalance (ds.map serializeBalance) = some ds' from hds]
    · rw [List.map_cons, List.map_cons, hv, hdv]

/-! ## Claim theorems -/

/-- **C8.** Serializing any decimal (monetary) value to the wire and
deserializing it back yields the original value exactly; the wire
representation is always a canonical decimal string — a JSON string, never a
JSON number, with no binary floating-point form anywhere in the codec — for
the required (`Balance`), optional (`OptionalBalance`, where an absent value is
`null`), and sequence (`VecBalance`) forms. -/
theorem spec_c8_decimal_roundtrip :
    (∀ d : BigDecimal, serializeBalance d = .str (String.mk (bigDecimalToChars d)) ∧
      ∃ d', deserializeBalance (serializeBalance d) = some d' ∧ d'.val = d.val) ∧
    (serializeOptionalBalance none = .null ∧
      deserializeOptionalBalance (serializeOptionalBalance none) = some none) ∧
    (∀ d : BigDecimal,
      serializeOptionalBalance (some d) = .str (String.mk (bigDecimalToChars d)) ∧
      ∃ d', deserializeOptionalBalance (serializeOptionalBalance (some d)) =
        some (some d') ∧ d'.val = d.val) ∧
    (∀ ds : List BigDecimal,
      serializeVecBalance ds = .arr (ds.map fun d =>
        .str (String.mk (bigDecimalToChars d))) ∧
      ∃ ds', deserializeVecBalance (serializeVecBalance ds) = some ds' ∧
        ds'.map BigDecimal.val = ds.map BigDecimal.val) := by
  refine ⟨fun d => ⟨rfl, deserialize_serializeBalance d⟩, ⟨rfl, rfl⟩,
    fun d => ⟨rfl, ?_⟩, fun ds => ⟨by rw [serializeVecBalance]; rfl,
      deserialize_serializeVecBalance ds⟩⟩
  obtain ⟨d', hd, hdv⟩ := parseBigDecimal_bigDecimalToChars d
  refine ⟨d', ?_, hdv⟩
  show (parseBigDecimal (bigDecimalToChars d)).map some = some (some d')
  rw [hd]
  rfl

/-- **C1.** For every request with a valid cursor (`blocks ≤ 50`) whose query
succeeds — on any endpoint, all of which run `eventsQuery` — the set of
distinct block timestamps among the returned events has size at most `blocks`,
every returned event's timestamp is at least `start_block_timestamp_nanosec`,
and the returned sequence is ordered non-decreasing by timestamp. -/
theorem spec_c1_window_bounds {ρ : Type} (ts : ρ → Int) (pred : ρ → Bool)
    (start limit : Int) (rows res : List ρ)
    (hlim : limit ≤ MAX_BLOCKS_PER_REQUEST)
    (h : eventsQuery ts pred start limit rows = .ok res) :
    ((res.map ts).toFinset.card : Int) ≤ limit ∧
    (∀ r ∈ res, start ≤ ts r) ∧
    res.Pairwise (fun a b => ts a ≤ ts b) := by
  obtain ⟨hnn, hres⟩ := eventsQuery_eq_ok h
  subst hres
  refine ⟨?_, ?_, sqlSelect_sorted ts pred _ rows⟩
  · have hsub : (List.map ts (sqlSelect ts pred
        (sqlWindow ts pred start limit rows) rows)).toFinset ⊆
        (sqlWindow ts pred start limit rows).toFinset := by
      intro t ht
      rw [List.mem_toFinset] at ht ⊢
      obtain ⟨r, hr, hrt⟩ := List.mem_map.mp ht
      exact hrt ▸ (mem_sqlSelect.mp hr).2.1
    calc ((List.map ts _).toFinset.card : Int)
        ≤ ((sqlWindow ts pred start limit rows).toFinset.card : Int) := by
          exact_mod_cast Finset.card_le_card hsub
      _ = ((sqlWindow ts pred start limit rows).length : Int) := by
          rw [List.toFinset_card_of_nodup (sqlWindow_nodup ts pred start limit rows)]
      _ ≤ (limit.toNat : Int) := by
          exact_mod_cast sqlWindow_length_le ts pred start limit rows
      _ = limit := by omega
  · intro r hr
    exact (mem_sqlWindow_imp (mem_sqlSelect.mp hr).2.1).1

theorem spec_c1_window_bounds_witness :
    (((([100, 100, 200] : List Int).map (fun t : Int => t)).toFinset.card : Int) ≤ 2 ∧
     (∀ r ∈ [(100 : Int), 100, 200], (0 : Int) ≤ r) ∧
     ([(100 : Int), 100, 200]).Pairwise (fun a b : Int => a ≤ b)) :=
  spec_c1_window_bounds (fun t => t) (fun _ => true) 0 2 [100, 100, 200]
    [100, 100, 200] (by decide) rfl

/-- **C6.** A row is in the response exactly when it is a stored row whose
block timestamp is in the selected window and which itself satisfies the
filter — the window and the row selection use the same predicate `pred` — and
every window timestamp is at or after the cursor and is witnessed by at least
one stored row matching that same predicate. -/
theorem spec_c6_window_membership {ρ : Type} (ts : ρ → Int) (pred : ρ → Bool)
    (start limit : Int) (rows res : List ρ)
    (h : eventsQuery ts pred start limit rows = .ok res) :
    (∀ r, r ∈ res ↔
      r ∈ rows ∧ ts r ∈ sqlWindow ts pred start limit rows ∧ pred r = true) ∧
    (∀ t ∈ sqlWindow ts pred start limit rows,
      start ≤ t ∧ ∃ r ∈ rows, pred r = true ∧ ts r = t) := by
  obtain ⟨hnn, hres⟩ := eventsQuery_eq_ok h
  subst hres
  exact ⟨fun r => mem_sqlSelect, fun t ht => mem_sqlWindow_imp ht⟩

theorem spec_c6_window_membership_witness :
    (∀ r : Int, r ∈ [(100 : Int), 100] ↔
      r ∈ [(100 : Int), 100, 200] ∧
        r ∈ sqlWindow (fun t : Int => t) (fun _ => true) 0 1 [100, 100, 200] ∧
        (fun _ : Int => true) r = true) ∧
    (∀ t ∈ sqlWindow (fun t : Int => t) (fun _ => true) 0 1 [100, 100, 200],
      (0 : Int) ≤ t ∧ ∃ r ∈ [(100 : Int), 100, 200], (fun _ : Int => true) r = true ∧
        r = t) :=
  spec_c6_window_membership (fun t => t) (fun _ => true) 0 1 [100, 100, 200]
    [100, 100] rfl

/-- **C4.** On every endpoint, `blocks ≤ 50` passes validation (the response
is never a client error, and an unhealthy store is still consulted, showing the
query proceeds), while `blocks > 50` — in particular `blocks = 51` — yields the
`400` response with the explanatory message, independent of the store, so no
storage access occurs. -/
theorem spec_c4_blocks_bound :
    (∀ (s : Store NftMintEvent) (p : PaginationInfo) (f : NftMintFilter),
      (MAX_BLOCKS_PER_REQUEST < p.blocks → nft_mint s p f = .badRequest blocksErrorBody) ∧
      (p.blocks ≤ MAX_BLOCKS_PER_REQUEST → ∀ b, nft_mint s p f ≠ .badRequest b) ∧
      (p.blocks ≤ MAX_BLOCKS_PER_REQUEST → s.healthy = false →
        nft_mint s p f = .panicked)) ∧
    (∀ (s : Store NftTransferEvent) (p : PaginationInfo) (f : NftTransferFilter),
      (MAX_BLOCKS_PER_REQUEST < p.blocks → nft_transfer s p f = .badRequest blocksErrorBody) ∧
      (p.blocks ≤ MAX_BLOCKS_PER_REQUEST → ∀ b, nft_transfer s p f ≠ .badRequest b) ∧
      (p.blocks ≤ MAX_BLOCKS_PER_REQUEST → s.healthy = false →
        nft_transfer s p f = .panicked)) ∧
    (∀ (s : Store NftBurnEvent) (p : PaginationInfo) (f : NftBurnFilter),
      (MAX_BLOCKS_PER_REQUEST < p.blocks → nft_burn s p f = .badRequest blocksErrorBody) ∧
      (p.blocks ≤ MAX_BLOCKS_PER_REQUEST → ∀ b, nft_burn s p f ≠ .badRequest b) ∧
      (p.blocks ≤ MAX_BLOCKS_PER_REQUEST → s.healthy = false →
        nft_burn s p f = .panicked)) ∧
    (∀ (s : Store PotlockDonationEvent) (p : PaginationInfo) (f : PotlockDonationFilter),
      (MAX_BLOCKS_PER_REQUEST < p.blocks → potlock_donation s p f = .badRequest blocksErrorBody) ∧
      (p.blocks ≤ MAX_BLOCKS_PER_REQUEST → ∀ b, potlock_donation s p f ≠ .badRequest b) ∧
      (p.blocks ≤ MAX_BLOCKS_PER_REQUEST → s.healthy = false →
        potlock_donation s p f = .internalServerError)) ∧
    (∀ (s : Store PotlockPotProjectDonationEvent) (p : PaginationInfo) (f : PotlockPotProjectDonationFilter),
      (MAX_BLOCKS_PER_REQUEST < p.blocks → potlock_pot_project_donation s p f = .badRequest blocksErrorBody) ∧
      (p.blocks ≤ MAX_BLOCKS_PER_REQUEST → ∀ b, potlock_pot_project_donation s p f ≠ .badRequest b) ∧
      (p.blocks ≤ MAX_BLOCKS_PER_REQUEST → s.healthy = false →
        potlock_pot_project_donation s p f = .internalServerError)) ∧
    (∀ (s : Store PotlockPotDonationEvent) (p : PaginationInfo) (f : PotlockPotDonationFilter),
      (MAX_BLOCKS_PER_REQUEST < p.blocks → potlock_pot_donation s p f = .badRequest blocksErrorBody) ∧
      (p.blocks ≤ MAX_BLOCKS_PER_REQUEST → ∀ b, potlock_pot_donation s p f ≠ .badRequest b) ∧
      (p.blocks ≤ MAX_BLOCKS_PER_REQUEST → s.healthy = false →
        potlock_pot_donation s p f = .internalServerError)) ∧
    (∀ (s : Store TradePoolEvent) (p : PaginationInfo) (f : TradePoolFilter),
      (MAX_BLOCKS_PER_REQUEST < p.blocks → trade_pool s p f = .badRequest blocksErrorBody) ∧
      (p.blocks ≤ MAX_BLOCKS_PER_REQUEST → ∀ b, trade_pool s p f ≠ .badRequest b) ∧
      (p.blocks ≤ MAX_BLOCKS_PER_REQUEST → s.healthy = false →
        trade_pool s p f = .internalServerError)) ∧
    (∀ (s : Store TradeSwapEvent) (p : PaginationInfo) (f : TradeSwapFilter),
      (MAX_BLOCKS_PER_REQUEST < p.blocks → trade_swap s p f = .badRequest blocksErrorBody) ∧
      (p.blocks ≤ MAX_BLOCKS_PER_REQUEST → ∀ b, trade_swap s p f ≠ .badRequest b) ∧
      (p.blocks ≤ MAX_BLOCKS_PER_REQUEST → s.healthy = false →
        trade_swap s p f = .internalServerError)) ∧
    (∀ (s : Store TradePoolChangeEvent) (p : PaginationInfo) (f : TradePoolChangeFilter),
      (MAX_BLOCKS_PER_REQUEST < p.blocks → trade_pool_change s p f = .badRequest blocksErrorBody) ∧
      (p.blocks ≤ MAX_BLOCKS_PER_REQUEST → ∀ b, trade_pool_change s p f ≠ .badRequest b) ∧
      (p.blocks ≤ MAX_BLOCKS_PER_REQUEST → s.healthy = false →
        trade_pool_change s p f = .internalServerError)) := by
  refine ⟨?_, ?_, ?_, ?_, ?_, ?_, ?_, ?_, ?_⟩
  · intro s p f
    exact ⟨fun hb => by simp [nft_mint, hb],
      fun hb b => by simp only [nft_mint, if_neg (not_lt.mpr hb)]; split <;> simp,
      fun hb hh => by simp [nft_mint, runQuery, hh, not_lt.mpr hb]⟩
  · intro s p f
    exact ⟨fun hb => by simp [nft_transfer, hb],
      fun hb b => by simp only [nft_transfer, if_neg (not_lt.mpr hb)]; split <;> simp,
      fun hb hh => by simp [nft_transfer, runQuery, hh, not_lt.mpr hb]⟩
  · intro s p f
    exact ⟨fun hb => by simp [nft_burn, hb],
      fun hb b => by simp only [nft_burn, if_neg (not_lt.mpr hb)]; split <;> simp,
      fun hb hh => by simp [nft_burn, runQuery, hh, not_lt.mpr hb]⟩
  · intro s p f
    exact ⟨fun hb => by simp [potlock_donation, hb],
      fun hb b => by simp only [potlock_donation, if_neg (not_lt.mpr hb)]; split <;> simp,
      fun hb hh => by simp [potlock_donation, runQuery, hh, not_lt.mpr hb]⟩
  · intro s p f
    exact ⟨fun hb => by simp [potlock_pot_project_donation, hb],
      fun hb b => by simp only [potlock_pot_project_donation, if_neg (not_lt.mpr hb)]; split <;> simp,
      fun hb hh => by simp [potlock_pot_project_donation, runQuery, hh, not_lt.mpr hb]⟩
  · intro s p f
    exact ⟨fun hb => by simp [potlock_pot_donation, hb],
      fun hb b => by simp only [potlock_pot_donation, if_neg (not_lt.mpr hb)]; split <;> simp,
      fun hb hh => by simp [potlock_pot_donation, runQuery, hh, not_lt.mpr hb]⟩
  · intro s p f
    exact ⟨fun hb => by simp [trade_pool, hb],
      fun hb b => by simp only [trade_pool, if_neg (not_lt.mpr hb)]; split <;> simp,
      fun hb hh => by simp [trade_pool, runQuery, hh, not_lt.mpr hb]⟩
  · intro s p f
    exact ⟨fun hb => by simp [trade_swap, hb],
      fun hb b => by simp only [trade_swap, if_neg (not_lt.mpr hb)]; split <;> simp,
      fun hb hh => by simp [trade_swap, runQuery, hh, not_lt.mpr hb]⟩
  · intro s p f
    exact ⟨fun hb => by simp [trade_pool_change, hb],
      fun hb b => by simp only [trade_pool_change, if_neg (not_lt.mpr hb)]; split <;> simp,
      fun hb hh => by simp [trade_pool_change, runQuery, hh, not_lt.mpr hb]⟩

theorem spec_c4_blocks_bound_witness :
    nft_mint ⟨[], true⟩ ⟨0, 51⟩ ⟨none, none⟩ = .badRequest blocksErrorBody ∧
    nft_mint ⟨[], true⟩ ⟨0, 50⟩ ⟨none, none⟩ ≠ .badRequest blocksErrorBody ∧
    potlock_donation ⟨[], false⟩ ⟨0, 50⟩ ⟨none, none, none⟩ =
      .internalServerError :=
  ⟨(spec_c4_blocks_bound.1 ⟨[], true⟩ ⟨0, 51⟩ ⟨none, none⟩).1 (by decide),
   (spec_c4_blocks_bound.1 ⟨[], true⟩ ⟨0, 50⟩ ⟨none, none⟩).2.1 (by decide)
     blocksErrorBody,
   (spec_c4_blocks_bound.2.2.2.1 ⟨[], false⟩ ⟨0, 50⟩ ⟨none, none, none⟩).2.2
     (by decide) rfl⟩

/-- **C5 (amended).** When the storage fetch fails on a validated request, the
three donation endpoints and the three trade endpoints terminate with the
bodiless server-error response and emit no partial body; the three nft
endpoints instead panic on their `.unwrap()` and produce no server-error
response at all (and also no partial body). -/
theorem spec_c5_fetch_failure :
    (∀ (s : Store PotlockDonationEvent) (p : PaginationInfo) (f : PotlockDonationFilter),
      p.blocks ≤ MAX_BLOCKS_PER_REQUEST → s.healthy = false →
        potlock_donation s p f = .internalServerError) ∧
    (∀ (s : Store PotlockPotProjectDonationEvent) (p : PaginationInfo) (f : PotlockPotProjectDonationFilter),
      p.blocks ≤ MAX_BLOCKS_PER_REQUEST → s.healthy = false →
        potlock_pot_project_donation s p f = .internalServerError) ∧
    (∀ (s : Store PotlockPotDonationEvent) (p : PaginationInfo) (f : PotlockPotDonationFilter),
      p.blocks ≤ MAX_BLOCKS_PER_REQUEST → s.healthy = false →
        potlock_pot_donation s p f = .internalServerError) ∧
    (∀ (s : Store TradePoolEvent) (p : PaginationInfo) (f : TradePoolFilter),
      p.blocks ≤ MAX_BLOCKS_PER_REQUEST → s.healthy = false →
        trade_pool s p f = .internalServerError) ∧
    (∀ (s : Store TradeSwapEvent) (p : PaginationInfo) (f : TradeSwapFilter),
      p.blocks ≤ MAX_BLOCKS_PER_REQUEST → s.healthy = false →
        trade_swap s p f = .internalServerError) ∧
    (∀ (s : Store TradePoolChangeEvent) (p : PaginationInfo) (f : TradePoolChangeFilter),
      p.blocks ≤ MAX_BLOCKS_PER_REQUEST → s.healthy = false →
        trade_pool_change s p f = .internalServerError) ∧
    (∀ (s : Store NftMintEvent) (p : PaginationInfo) (f : NftMintFilter),
      p.blocks ≤ MAX_BLOCKS_PER_REQUEST → s.healthy = false →
        nft_mint s p f = .panicked) ∧
    (∀ (s : Store NftTransferEvent) (p : PaginationInfo) (f : NftTransferFilter),
      p.blocks ≤ MAX_BLOCKS_PER_REQUEST → s.healthy = false →
        nft_transfer s p f = .panicked) ∧
    (∀ (s : Store NftBurnEvent) (p : PaginationInfo) (f : NftBurnFilter),
      p.blocks ≤ MAX_BLOCKS_PER_REQUEST → s.healthy = false →
        nft_burn s p f = .panicked) := by
  refine ⟨?_, ?_, ?_, ?_, ?_, ?_, ?_, ?_, ?_⟩
  · intro s p f hb hh
    simp [potlock_donation, runQuery, hh, not_lt.mpr hb]
  · intro s p f hb hh
    simp [potlock_pot_project_donation, runQuery, hh, not_lt.mpr hb]
  · intro s p f hb hh
    simp [potlock_pot_donation, runQuery, hh, not_lt.mpr hb]
  · intro s p f hb hh
    simp [trade_pool, runQuery, hh, not_lt.mpr hb]
  · intro s p f hb hh
    simp [trade_swap, runQuery, hh, not_lt.mpr hb]
  · intro s p f hb hh
    simp [trade_pool_change, runQuery, hh, not_lt.mpr hb]
  · intro s p f hb hh
    simp [nft_mint, runQuery, hh, not_lt.mpr hb]
  · intro s p f hb hh
    simp [nft_transfer, runQuery, hh, not_lt.mpr hb]
  · intro s p f hb hh
    simp [nft_burn, runQuery, hh, not_lt.mpr hb]

theorem spec_c5_fetch_failure_witness :
    potlock_donation ⟨[], false⟩ ⟨0, 10⟩ ⟨none, none, none⟩ =
      .internalServerError ∧
    nft_mint ⟨[], false⟩ ⟨0, 10⟩ ⟨none, none⟩ = .panicked :=
  ⟨spec_c5_fetch_failure.1 ⟨[], false⟩ ⟨0, 10⟩ ⟨none, none, none⟩ (by decide) rfl,
   spec_c5_fetch_failure.2.2.2.2.2.2.1 ⟨[], false⟩ ⟨0, 10⟩ ⟨none, none⟩
     (by decide) rfl⟩

/-- **C5, counterexample to the claim as stated.** On a fetch failure the
`nft_mint` endpoint does not terminate with a server-error response: the
handler's `.unwrap()` panics. -/
theorem spec_c5_counterexample :
    nft_mint ⟨[], false⟩ ⟨0, 10⟩ ⟨none, none⟩ = .panicked ∧
    nft_mint ⟨[], false⟩ ⟨0, 10⟩ ⟨none, none⟩ ≠ .internalServerError :=
  ⟨rfl, by decide⟩

/-- **C10.** Every endpoint validates only the upper bound of `blocks`: any
request with `blocks ≤ 50` — including `0` and negative values — passes
validation (never a client error) and still reaches the store (an unhealthy
store changes the outcome), and `blocks = 0` against a healthy store yields
the success response with an empty array. -/
theorem spec_c10_only_upper_bound :
    (∀ (s : Store NftMintEvent) (p : PaginationInfo) (f : NftMintFilter),
      (p.blocks ≤ MAX_BLOCKS_PER_REQUEST → ∀ b, nft_mint s p f ≠ .badRequest b) ∧
      (p.blocks ≤ MAX_BLOCKS_PER_REQUEST → s.healthy = false →
        nft_mint s p f = .panicked) ∧
      (p.blocks = 0 → s.healthy = true → nft_mint s p f = .ok [])) ∧
    (∀ (s : Store NftTransferEvent) (p : PaginationInfo) (f : NftTransferFilter),
      (p.blocks ≤ MAX_BLOCKS_PER_REQUEST → ∀ b, nft_transfer s p f ≠ .badRequest b) ∧
      (p.blocks ≤ MAX_BLOCKS_PER_REQUEST → s.healthy = false →
        nft_transfer s p f = .panicked) ∧
      (p.blocks = 0 → s.healthy = true → nft_transfer s p f = .ok [])) ∧
    (∀ (s : Store NftBurnEvent) (p : PaginationInfo) (f : NftBurnFilter),
      (p.blocks ≤ MAX_BLOCKS_PER_REQUEST → ∀ b, nft_burn s p f ≠ .badRequest b) ∧
      (p.blocks ≤ MAX_BLOCKS_PER_REQUEST → s.healthy = false →
        nft_burn s p f = .panicked) ∧
      (p.blocks = 0 → s.healthy = true → nft_burn s p f = .ok [])) ∧
    (∀ (s : Store PotlockDonationEvent) (p : PaginationInfo) (f : PotlockDonationFilter),
      (p.blocks ≤ MAX_BLOCKS_PER_REQUEST → ∀ b, potlock_donation s p f ≠ .badRequest b) ∧
      (p.blocks ≤ MAX_BLOCKS_PER_REQUEST → s.healthy = false →
        potlock_donation s p f = .internalServerError) ∧
      (p.blocks = 0 → s.healthy = true → potlock_donation s p f = .ok [])) ∧
    (∀ (s : Store PotlockPotProjectDonationEvent) (p : PaginationInfo) (f : PotlockPotProjectDonationFilter),
      (p.blocks ≤ MAX_BLOCKS_PER_REQUEST → ∀ b, potlock_pot_project_donation s p f ≠ .badRequest b) ∧
      (p.blocks ≤ MAX_BLOCKS_PER_REQUEST → s.healthy = false →
        potlock_pot_project_donation s p f = .internalServerError) ∧
      (p.blocks = 0 → s.healthy = true → potlock_pot_project_donation s p f = .ok [])) ∧
    (∀ (s : Store PotlockPotDonationEvent) (p : PaginationInfo) (f : PotlockPotDonationFilter),
      (p.blocks ≤ MAX_BLOCKS_PER_REQUEST → ∀ b, potlock_pot_donation s p f ≠ .badRequest b) ∧
      (p.blocks ≤ MAX_BLOCKS_PER_REQUEST → s.healthy = false →
        potlock_pot_donation s p f = .internalServerError) ∧
      (p.blocks = 0 → s.healthy = true → potlock_pot_donation s p f = .ok [])) ∧
    (∀ (s : Store TradePoolEvent) (p : PaginationInfo) (f : TradePoolFilter),
      (p.blocks ≤ MAX_BLOCKS_PER_REQUEST → ∀ b, trade_pool s p f ≠ .badRequest b) ∧
      (p.blocks ≤ MAX_BLOCKS_PER_REQUEST → s.healthy = false →
        trade_pool s p f = .internalServerError) ∧
      (p.blocks = 0 → s.healthy = true → trade_pool s p f = .ok [])) ∧
    (∀ (s : Store TradeSwapEvent) (p : PaginationInfo) (f : TradeSwapFilter),
      (p.blocks ≤ MAX_BLOCKS_PER_REQUEST → ∀ b, trade_swap s p f ≠ .badRequest b) ∧
      (p.blocks ≤ MAX_BLOCKS_PER_REQUEST → s.healthy = false →
        trade_swap s p f = .internalServerError) ∧
      (p.blocks = 0 → s.healthy = true → trade_swap s p f = .ok [])) ∧
    (∀ (s : Store TradePoolChangeEvent) (p : PaginationInfo) (f : TradePoolChangeFilter),
      (p.blocks ≤ MAX_BLOCKS_PER_REQUEST → ∀ b, trade_pool_change s p f ≠ .badRequest b) ∧
      (p.blocks ≤ MAX_BLOCKS_PER_REQUEST → s.healthy = false →
        trade_pool_change s p f = .internalServerError) ∧
      (p.blocks = 0 → s.healthy = true → trade_pool_change s p f = .ok [])) := by
  refine ⟨?_, ?_, ?_, ?_, ?_, ?_, ?_, ?_, ?_⟩
  · intro s p f
    refine ⟨fun hb b => by simp only [nft_mint, if_neg (not_lt.mpr hb)]; split <;> simp,
      fun hb hh => by simp [nft_mint, runQuery, hh, not_lt.mpr hb], fun hb0 hh => ?_⟩
    have h1 : ¬(MAX_BLOCKS_PER_REQUEST < p.blocks) := by rw [hb0]; decide
    simp [nft_mint, if_neg h1, runQuery, hh, hb0, eventsQuery_limit_zero]
    decide
  · intro s p f
    refine ⟨fun hb b => by simp only [nft_transfer, if_neg (not_lt.mpr hb)]; split <;> simp,
      fun hb hh => by simp [nft_transfer, runQuery, hh, not_lt.mpr hb], fun hb0 hh => ?_⟩
    have h1 : ¬(MAX_BLOCKS_PER_REQUEST < p.blocks) := by rw [hb0]; decide
    simp [nft_transfer, if_neg h1, runQuery, hh, hb0, eventsQuery_limit_zero]
    decide
  · intro s p f
    refine ⟨fun hb b => by simp only [nft_burn, if_neg (not_lt.mpr hb)]; split <;> simp,
      fun hb hh => by simp [nft_burn, runQuery, hh, not_lt.mpr hb], fun hb0 hh => ?_⟩
    have h1 : ¬(MAX_BLOCKS_PER_REQUEST < p.blocks) := by rw [hb0]; decide
    simp [nft_burn, if_neg h1, runQuery, hh, hb0, eventsQuery_limit_zero]
    decide
  · intro s p f
    refine ⟨fun hb b => by simp only [potlock_donation, if_neg (not_lt.mpr hb)]; split <;> simp,
      fun hb hh => by simp [potlock_donation, runQuery, hh, not_lt.mpr hb], fun hb0 hh => ?_⟩
    have h1 : ¬(MAX_BLOCKS_PER_REQUEST < p.blocks) := by rw [hb0]; decide
    simp [potlock_donation, if_neg h1, runQuery, hh, hb0, eventsQuery_limit_zero]
    decide
  · intro s p f
    refine ⟨fun hb b => by simp only [potlock_pot_project_donation, if_neg (not_lt.mpr hb)]; split <;> simp,
      fun hb hh => by simp [potlock_pot_project_donation, runQuery, hh, not_lt.mpr hb], fun hb0 hh => ?_⟩
    have h1 : ¬(MAX_BLOCKS_PER_REQUEST < p.blocks) := by rw [hb0]; decide
    simp [potlock_pot_project_donation, if_neg h1, runQuery, hh, hb0, eventsQuery_limit_zero]
    decide
  · intro s p f
    refine ⟨fun hb b => by simp only [potlock_pot_donation, if_neg (not_lt.mpr hb)]; split <;> simp,
      fun hb hh => by simp [potlock_pot_donation, runQuery, hh, not_lt.mpr hb], fun hb0 hh => ?_⟩
    have h1 : ¬(MAX_BLOCKS_PER_REQUEST < p.blocks) := by rw [hb0]; decide
    simp [potlock_pot_donation, if_neg h1, runQuery, hh, hb0, eventsQuery_limit_zero]
    decide
  · intro s p f
    refine ⟨fun hb b => by simp only [trade_pool, if_neg (not_lt.mpr hb)]; split <;> simp,
      fun hb hh => by simp [trade_pool, runQuery, hh, not_lt.mpr hb], fun hb0 hh => ?_⟩
    have h1 : ¬(MAX_BLOCKS_PER_REQUEST < p.blocks) := by rw [hb0]; decide
    simp [trade_pool, if_neg h1, runQuery, hh, hb0, eventsQuery_limit_zero]
    decide
  · intro s p f
    refine ⟨fun hb b => by simp only [trade_swap, if_neg (not_lt.mpr hb)]; split <;> simp,
      fun hb hh => by simp [trade_swap, runQuery, hh, not_lt.mpr hb], fun hb0 hh => ?_⟩
    have h1 : ¬(MAX_BLOCKS_PER_REQUEST < p.blocks) := by rw [hb0]; decide
    simp [trade_swap, if_neg h1, runQuery, hh, hb0, eventsQuery_limit_zero]
    decide
  · intro s p f
    refine ⟨fun hb b => by simp only [trade_pool_change, if_neg (not_lt.mpr hb)]; split <;> simp,
      fun hb hh => by simp [trade_pool_change, runQuery, hh, not_lt.mpr hb], fun hb0 hh => ?_⟩
    have h1 : ¬(MAX_BLOCKS_PER_REQUEST < p.blocks) := by rw [hb0]; decide
    simp [trade_pool_change, if_neg h1, runQuery, hh, hb0, eventsQuery_limit_zero]
    decide

theorem spec_c10_only_upper_bound_witness :
    nft_mint ⟨[], true⟩ ⟨0, -3⟩ ⟨none, none⟩ ≠ .badRequest blocksErrorBody ∧
    nft_mint ⟨[], false⟩ ⟨0, -3⟩ ⟨none, none⟩ = .panicked ∧
    nft_mint ⟨[⟨"o", [], none, "t", "r", 1, 5, "c"⟩], true⟩ ⟨0, 0⟩ ⟨none, none⟩ =
      .ok [] :=
  ⟨(spec_c10_only_upper_bound.1 ⟨[], true⟩ ⟨0, -3⟩ ⟨none, none⟩).1 (by decide)
     blocksErrorBody,
   (spec_c10_only_upper_bound.1 ⟨[], false⟩ ⟨0, -3⟩ ⟨none, none⟩).2.1
     (by decide) rfl,
   (spec_c10_only_upper_bound.1 ⟨[⟨"o", [], none, "t", "r", 1, 5, "c"⟩], true⟩
     ⟨0, 0⟩ ⟨none, none⟩).2.2 rfl rfl⟩

/-- **C9.** When the store holds no event at or after the cursor that satisfies
the filter (the window is empty), every endpoint answers the validated request
with a success response carrying an empty JSON array, not an error. -/
theorem spec_c9_empty_window :
    (∀ (s : Store NftMintEvent) (p : PaginationInfo) (f : NftMintFilter),
      s.healthy = true → 0 ≤ p.blocks → p.blocks ≤ MAX_BLOCKS_PER_REQUEST →
      (∀ r ∈ s.rows, ¬(nftMintPred f r = true ∧
        p.start_block_timestamp_nanosec ≤ r.timestamp)) →
      nft_mint s p f = .ok []) ∧
    (∀ (s : Store NftTransferEvent) (p : PaginationInfo) (f : NftTransferFilter),
      s.healthy = true → 0 ≤ p.blocks → p.blocks ≤ MAX_BLOCKS_PER_REQUEST →
      (∀ r ∈ s.rows, ¬(nftTransferPred f r = true ∧
        p.start_block_timestamp_nanosec ≤ r.timestamp)) →
      nft_transfer s p f = .ok []) ∧
    (∀ (s : Store NftBurnEvent) (p : PaginationInfo) (f : NftBurnFilter),
      s.healthy = true → 0 ≤ p.blocks → p.blocks ≤ MAX_BLOCKS_PER_REQUEST →
      (∀ r ∈ s.rows, ¬(nftBurnPred f r = true ∧
        p.start_block_timestamp_nanosec ≤ r.timestamp)) →
      nft_burn s p f = .ok []) ∧
    (∀ (s : Store PotlockDonationEvent) (p : PaginationInfo) (f : PotlockDonationFilter),
      s.healthy = true → 0 ≤ p.blocks → p.blocks ≤ MAX_BLOCKS_PER_REQUEST →
      (∀ r ∈ s.rows, ¬(potlockDonationPred f r = true ∧
        p.start_block_timestamp_nanosec ≤ r.timestamp)) →
      potlock_donation s p f = .ok []) ∧
    (∀ (s : Store PotlockPotProjectDonationEvent) (p : PaginationInfo) (f : PotlockPotProjectDonationFilter),
      s.healthy = true → 0 ≤ p.blocks → p.blocks ≤ MAX_BLOCKS_PER_REQUEST →
      (∀ r ∈ s.rows, ¬(potlockPotProjectDonationPred f r = true ∧
        p.start_block_timestamp_nanosec ≤ r.timestamp)) →
      potlock_pot_project_donation s p f = .ok []) ∧
    (∀ (s : Store PotlockPotDonationEvent) (p : PaginationInfo) (f : PotlockPotDonationFilter),
      s.healthy = true → 0 ≤ p.blocks → p.blocks ≤ MAX_BLOCKS_PER_REQUEST →
      (∀ r ∈ s.rows, ¬(potlockPotDonationPred f r = true ∧
        p.start_block_timestamp_nanosec ≤ r.timestamp)) →
      potlock_pot_donation s p f = .ok []) ∧
    (∀ (s : Store TradePoolEvent) (p : PaginationInfo) (f : TradePoolFilter),
      s.healthy = true → 0 ≤ p.blocks → p.blocks ≤ MAX_BLOCKS_PER_REQUEST →
      (∀ r ∈ s.rows, ¬(tradePoolPred f r = true ∧
        p.start_block_timestamp_nanosec ≤ r.timestamp)) →
      trade_pool s p f = .ok []) ∧
    (∀ (s : Store TradeSwapEvent) (p : PaginationInfo) (f : TradeSwapFilter),
      s.healthy = true → 0 ≤ p.blocks → p.blocks ≤ MAX_BLOCKS_PER_REQUEST →
      (∀ r ∈ s.rows, ¬(tradeSwapPred f r = true ∧
        p.start_block_timestamp_nanosec ≤ r.timestamp)) →
      trade_swap s p f = .ok []) ∧
    (∀ (s : Store TradePoolChangeEvent) (p : PaginationInfo) (f : TradePoolChangeFilter),
      s.healthy = true → 0 ≤ p.blocks → p.blocks ≤ MAX_BLOCKS_PER_REQUEST →
      (∀ r ∈ s.rows, ¬(tradePoolChangePred f r = true ∧
        p.start_block_timestamp_nanosec ≤ r.timestamp)) →
      trade_pool_change s p f = .ok []) := by
  refine ⟨?_, ?_, ?_, ?_, ?_, ?_, ?_, ?_, ?_⟩
  · intro s p f hh h0 hb hnone
    simp [nft_mint, runQuery, hh, not_lt.mpr hb,
      eventsQuery_empty_of_no_match hnone h0]
  · intro s p f hh h0 hb hnone
    simp [nft_transfer, runQuery, hh, not_lt.mpr hb,
      eventsQuery_empty_of_no_match hnone h0]
  · intro s p f hh h0 hb hnone
    simp [nft_burn, runQuery, hh, not_lt.mpr hb,
      eventsQuery_empty_of_no_match hnone h0]
  · intro s p f hh h0 hb hnone
    simp [potlock_donation, runQuery, hh, not_lt.mpr hb,
      eventsQuery_empty_of_no_match hnone h0]
  · intro s p f hh h0 hb hnone
    simp [potlock_pot_project_donation, runQuery, hh, not_lt.mpr hb,
      eventsQuery_empty_of_no_match hnone h0]
  · intro s p f hh h0 hb hnone
    simp [potlock_pot_donation, runQuery, hh, not_lt.mpr hb,
      eventsQuery_empty_of_no_match hnone h0]
  · intro s p f hh h0 hb hnone
    simp [trade_pool, runQuery, hh, not_lt.mpr hb,
      eventsQuery_empty_of_no_match hnone h0]
  · intro s p f hh h0 hb hnone
    simp [trade_swap, runQuery, hh, not_lt.mpr hb,
      eventsQuery_empty_of_no_match hnone h0]
  · intro s p f hh h0 hb hnone
    simp [trade_pool_change, runQuery, hh, not_lt.mpr hb,
      eventsQuery_empty_of_no_match hnone h0]

theorem spec_c9_empty_window_witness :
    potlock_donation ⟨[], true⟩ ⟨1000, 10⟩ ⟨none, none, none⟩ = .ok [] ∧
    trade_pool ⟨[], true⟩ ⟨1000, 10⟩ ⟨none, none⟩ = .ok [] :=
  ⟨spec_c9_empty_window.2.2.2.1 ⟨[], true⟩ ⟨1000, 10⟩ ⟨none, none, none⟩ rfl
     (by decide) (by decide) (by intro r hr; simp at hr),
   spec_c9_empty_window.2.2.2.2.2.2.1 ⟨[], true⟩ ⟨1000, 10⟩ ⟨none, none⟩ rfl
     (by decide) (by decide) (by intro r hr; simp at hr)⟩

/-- **C7.** With every optional filter field absent, each endpoint's composed
predicate matches every row, and the endpoint's query coincides with the
unfiltered query over the same cursor: the filter is a no-op. -/
theorem spec_c7_empty_filter_noop :
    ((∀ r : NftMintEvent, nftMintPred ⟨none, none⟩ r = true) ∧
      ∀ (start limit : Int) (rows : List NftMintEvent),
        eventsQuery NftMintEvent.timestamp (nftMintPred ⟨none, none⟩) start limit rows =
          eventsQuery NftMintEvent.timestamp (fun _ => true) start limit rows) ∧
    ((∀ r : NftTransferEvent, nftTransferPred ⟨none, none, none, none⟩ r = true) ∧
      ∀ (start limit : Int) (rows : List NftTransferEvent),
        eventsQuery NftTransferEvent.timestamp (nftTransferPred ⟨none, none, none, none⟩) start limit rows =
          eventsQuery NftTransferEvent.timestamp (fun _ => true) start limit rows) ∧
    ((∀ r : NftBurnEvent, nftBurnPred ⟨none, none⟩ r = true) ∧
      ∀ (start limit : Int) (rows : List NftBurnEvent),
        eventsQuery NftBurnEvent.timestamp (nftBurnPred ⟨none, none⟩) start limit rows =
          eventsQuery NftBurnEvent.timestamp (fun _ => true) start limit rows) ∧
    ((∀ r : PotlockDonationEvent, potlockDonationPred ⟨none, none, none⟩ r = true) ∧
      ∀ (start limit : Int) (rows : List PotlockDonationEvent),
        eventsQuery PotlockDonationEvent.timestamp (potlockDonationPred ⟨none, none, none⟩) start limit rows =
          eventsQuery PotlockDonationEvent.timestamp (fun _ => true) start limit rows) ∧
    ((∀ r : PotlockPotProjectDonationEvent, potlockPotProjectDonationPred ⟨none, none, none, none⟩ r = true) ∧
      ∀ (start limit : Int) (rows : List PotlockPotProjectDonationEvent),
        eventsQuery PotlockPotProjectDonationEvent.timestamp (potlockPotProjectDonationPred ⟨none, none, none, none⟩) start limit rows =
          eventsQuery PotlockPotProjectDonationEvent.timestamp (fun _ => true) start limit rows) ∧
    ((∀ r : PotlockPotDonationEvent, potlockPotDonationPred ⟨none, none, none⟩ r = true) ∧
      ∀ (start limit : Int) (rows : List PotlockPotDonationEvent),
        eventsQuery PotlockPotDonationEvent.timestamp (potlockPotDonationPred ⟨none, none, none⟩) start limit rows =
          eventsQuery PotlockPotDonationEvent.timestamp (fun _ => true) start limit rows) ∧
    ((∀ r : TradePoolEvent, tradePoolPred ⟨none, none⟩ r = true) ∧
      ∀ (start limit : Int) (rows : List TradePoolEvent),
        eventsQuery TradePoolEvent.timestamp (tradePoolPred ⟨none, none⟩) start limit rows =
          eventsQuery TradePoolEvent.timestamp (fun _ => true) start limit rows) ∧
    ((∀ r : TradeSwapEvent, tradeSwapPred ⟨none, none⟩ r = true) ∧
      ∀ (start limit : Int) (rows : List TradeSwapEvent),
        eventsQuery TradeSwapEvent.timestamp (tradeSwapPred ⟨none, none⟩) start limit rows =
          eventsQuery TradeSwapEvent.timestamp (fun _ => true) start limit rows) ∧
    ((∀ r : TradePoolChangeEvent, tradePoolChangePred ⟨none⟩ r = true) ∧
      ∀ (start limit : Int) (rows : List TradePoolChangeEvent),
        eventsQuery TradePoolChangeEvent.timestamp (tradePoolChangePred ⟨none⟩) start limit rows =
          eventsQuery TradePoolChangeEvent.timestamp (fun _ => true) start limit rows) := by
  refine ⟨?_, ?_, ?_, ?_, ?_, ?_, ?_, ?_, ?_⟩
  · exact ⟨fun r => rfl, fun start limit rows => eventsQuery_congr fun r => rfl⟩
  · exact ⟨fun r => rfl, fun start limit rows => eventsQuery_congr fun r => rfl⟩
  · exact ⟨fun r => rfl, fun start limit rows => eventsQuery_congr fun r => rfl⟩
  · exact ⟨fun r => rfl, fun start limit rows => eventsQuery_congr fun r => rfl⟩
  · exact ⟨fun r => rfl, fun start limit rows => eventsQuery_congr fun r => rfl⟩
  · exact ⟨fun r => rfl, fun start limit rows => eventsQuery_congr fun r => rfl⟩
  · exact ⟨fun r => rfl, fun start limit rows => eventsQuery_congr fun r => rfl⟩
  · exact ⟨fun r => rfl, fun start limit rows => eventsQuery_congr fun r => rfl⟩
  · exact ⟨fun r => rfl, fun start limit rows => eventsQuery_congr fun r => rfl⟩

/-- **C2, counterexample to the claim as stated.** With candidate list
`{"alice","bob"}`, a transfer row whose `old_owner_id` equals `"alice"` (so one
column matches a candidate) is *excluded*: the membership filter is
`ARRAY[old_owner_id, new_owner_id] @> $ids`, which requires every candidate to
appear, and `"bob"` does not. The endpoint returns an empty array where the
claim predicts the row. -/
theorem spec_c2_counterexample :
    nft_transfer ⟨[⟨"alice", "charlie", [], none, [], "tx", "rc", 1, 5, "con"⟩], true⟩
        ⟨0, 10⟩ ⟨none, none, none, some "alice,bob"⟩ = .ok [] ∧
    involvedAccountsPred ["alice", "bob"]
      ⟨"alice", "charlie", [], none, [], "tx", "rc", 1, 5, "con"⟩ = false ∧
    (⟨"alice", "charlie", [], none, [], "tx", "rc", 1, 5, "con"⟩ :
      NftTransferEvent).old_owner_id = "alice" :=
  ⟨rfl, rfl, rfl⟩

/-- **C2 (amended).** The membership filters use *all-of* semantics: a row
matches exactly when **every** value of the comma-separated candidate list
appears among the relevant columns (`old_owner_id`/`new_owner_id` on
`nft_transfer`, via the array-containment operator) or among the
`balance_changes` keys (`trade_swap`, via the jsonb all-keys operator). In
particular, with candidates `{"alice","bob"}` a row matches exactly when each
of `"alice"` and `"bob"` appears in one of the two columns — so a row where
neither column matches any candidate is excluded. -/
theorem spec_c2_membership_all_of :
    (∀ (cands : List String) (r : NftTransferEvent),
      involvedAccountsPred cands r = true ↔
        ∀ c ∈ cands, c = r.old_owner_id ∨ c = r.new_owner_id) ∧
    (∀ (cands : List String) (kvs : List (String × Json)),
      jsonHasAllKeys (Json.obj kvs) cands = true ↔
        ∀ c ∈ cands, ∃ j ∈ kvs, j.1 = c) ∧
    (∀ r : NftTransferEvent,
      involvedAccountsPred ["alice", "bob"] r = true ↔
        (("alice" = r.old_owner_id ∨ "alice" = r.new_owner_id) ∧
         ("bob" = r.old_owner_id ∨ "bob" = r.new_owner_id))) := by
  refine ⟨?_, ?_, ?_⟩
  · intro cands r
    simp [involvedAccountsPred, List.all_eq_true]
  · intro cands kvs
    simp [jsonHasAllKeys, List.all_eq_true, List.any_eq_true]
  · intro r
    simp [involvedAccountsPred]

/-- **C3, counterexample to the claim as stated.** On `nft_transfer`, supplying
`old_owner_id = "carol"` together with `involved_account_ids = "alice"` does
not apply the conjunction of both predicates: the first match arm wildcards
the owner fields, so a row with `old_owner_id = "alice"` (which fails
`old_owner_id = "carol"`) is still returned — a supplied filter field is
ignored. -/
theorem spec_c3_counterexample :
    nft_transfer ⟨[⟨"alice", "bob", [], none, [], "tx", "rc", 1, 5, "con"⟩], true⟩
        ⟨0, 10⟩ ⟨none, some "carol", none, some "alice"⟩ =
      .ok [⟨"alice", "bob", [], none, [], "tx", "rc", 1, 5, "con"⟩] ∧
    (⟨"alice", "bob", [], none, [], "tx", "rc", 1, 5, "con"⟩ :
      NftTransferEvent).old_owner_id ≠ "carol" :=
  ⟨rfl, by decide⟩

/-- **C3 (amended).** The rows considered are those satisfying the conjunction
of the supplied filter fields' predicates (absent fields imposing nothing) on
every endpoint and combination **except** `nft_transfer` with
`involved_account_ids` supplied: there only `token_account_id` and
`involved_account_ids` are applied, and any supplied `old_owner_id` or
`new_owner_id` is ignored. -/
theorem spec_c3_conjunctive_filters :
    (∀ (t o n : Option String) (inv : String) (r : NftTransferEvent),
      nftTransferPred ⟨t, o, n, some inv⟩ r =
        ((t.all fun v => r.contract_id == v) &&
          involvedAccountsPred (splitComma inv) r)) ∧
    (∀ (t o n : Option String) (r : NftTransferEvent),
      nftTransferPred ⟨t, o, n, none⟩ r =
        ((t.all fun v => r.contract_id == v) &&
          (o.all fun v => r.old_owner_id == v) &&
          (n.all fun v => r.new_owner_id == v))) ∧
    (∀ (f : NftMintFilter) (r : NftMintEvent),
      nftMintPred f r =
        ((f.token_account_id.all fun v => r.contract_id == v) &&
          (f.account_id.all fun v => r.owner_id == v))) ∧
    (∀ (f : NftBurnFilter) (r : NftBurnEvent),
      nftBurnPred f r =
        ((f.token_account_id.all fun v => r.contract_id == v) &&
          (f.account_id.all fun v => r.owner_id == v))) ∧
    (∀ (f : PotlockDonationFilter) (r : PotlockDonationEvent),
      potlockDonationPred f r =
        ((f.project_id.all fun v => r.project_id == v) &&
          (f.donor_id.all fun v => r.donor_id == v) &&
          (f.referrer_id.all fun v => r.referrer_id == some v))) ∧
    (∀ (f : PotlockPotProjectDonationFilter) (r : PotlockPotProjectDonationEvent),
      potlockPotProjectDonationPred f r =
        ((f.pot_id.all fun v => r.pot_id == v) &&
          (f.project_id.all fun v => r.project_id == v) &&
          (f.donor_id.all fun v => r.donor_id == v) &&
          (f.referrer_id.all fun v => r.referrer_id == some v))) ∧
    (∀ (f : PotlockPotDonationFilter) (r : PotlockPotDonationEvent),
      potlockPotDonationPred f r =
        ((f.pot_id.all fun v => r.pot_id == v) &&
          (f.donor_id.all fun v => r.donor_id == v) &&
          (f.referrer_id.all fun v => r.referrer_id == some v))) ∧
    (∀ (f : TradePoolFilter) (r : TradePoolEvent),
      tradePoolPred f r =
        ((f.pool_id.all fun v => r.pool == v) &&
          (f.account_id.all fun v => r.trader == v))) ∧
    (∀ (f : TradeSwapFilter) (r : TradeSwapEvent),
      tradeSwapPred f r =
        ((f.account_id.all fun v => r.trader == v) &&
          (f.involved_token_account_ids.all fun s =>
            jsonHasAllKeys r.balance_changes (splitComma s)))) ∧
    (∀ (f : TradePoolChangeFilter) (r : TradePoolChangeEvent),
      tradePoolChangePred f r = (f.pool_id.all fun v => r.pool_id == v)) := by
  refine ⟨?_, ?_, ?_, ?_, fun f r => rfl, fun f r => rfl, fun f r => rfl,
    fun f r => rfl, fun f r => rfl, fun f r => rfl⟩
  · intro t o n inv r
    cases t <;> cases o <;> cases n <;> simp [nftTransferPred]
  · intro t o n r
    cases t <;> cases o <;> cases n <;> simp [nftTransferPred]
  · intro f r
    obtain ⟨t, a⟩ := f
    cases t <;> cases a <;> simp [nftMintPred]
  · intro f r
    obtain ⟨t, a⟩ := f
    cases t <;> cases a <;> simp [nftBurnPred]

end EventsApi
